import Mathlib

/-
  Verification development for the anthropic-go client library.

  The core under study is the SSE streaming decoder in messages.go:
  the frame reader loop and the event-dispatch decoder of
  MessageStream.Recv, together with StreamMessage construction and the
  tolerance flag.

  Modelling conventions:
  * The underlying byte stream (HTTP response body read through a
    buffered line reader) is modelled as the list of complete
    newline-terminated lines, each stored without its terminator.
    ReadString returns io.EOF when the list is exhausted; a trailing
    partial line would be discarded by the code (it breaks on io.EOF
    without processing the partial line), so it is not represented.
  * Go strings.TrimSpace and strings.SplitN are modelled by the
    structurally recursive trimSpace and splitN2 below, identical on
    the ASCII input that can occur here.
  * encoding/json is modelled by a small JSON value type, a parser, and
    per-type unmarshal functions following the semantics of
    json.Unmarshal for the concrete struct types of the source: for a
    struct target the top level value must be an object (or null, a
    no-op); keys are processed in order; a key not matching any field
    tag is ignored; a key absent from the payload leaves the field
    unchanged; null into a pointer field stores nil, and a value into a
    nil pointer field allocates a fresh zero value first.
  * Go int is modelled as Int; machine overflow is irrelevant to the
    token counters concerned.
  * A Go nil-pointer-dereference panic is modelled by the distinguished
    outcome RecvOutcome.fault.
-/

namespace Anthropic

/-- The StreamEvent string type of the source (`type StreamEvent string`). -/
abbrev StreamEvent := String

abbrev StreamEventPing : StreamEvent := "ping"

abbrev StreamEventError : StreamEvent := "error"

abbrev StreamEventMessageStart : StreamEvent := "message_start"

abbrev StreamEventMessageStop : StreamEvent := "message_stop"

abbrev StreamEventMessageDelta : StreamEvent := "message_delta"

abbrev StreamEventContentBlockStart : StreamEvent := "content_block_start"

abbrev StreamEventContentBlockStop : StreamEvent := "content_block_stop"

abbrev StreamEventContentBlockDelta : StreamEvent := "content_block_delta"

/-- Usage: input/output token counts. -/
structure Usage where
  InputTokens : Int
  OutputTokens : Int
deriving DecidableEq

/-- ContentBlock: a typed unit of output, text-only. -/
structure ContentBlock where
  Type' : String
  Text : String
deriving DecidableEq

/-- Message: the accumulated message entity. -/
structure Message where
  ID : String
  Type' : String
  Role : String
  Content : List ContentBlock
  Model : String
  StopReason : String
  StopSequence : String
  Usage : Anthropic.Usage
deriving DecidableEq

/-- MessageDelta: stop reason / stop sequence carried by message_delta.
    StopSequence is a *string in Go, hence Option. -/
structure MessageDelta where
  StopReason : String
  StopSequence : Option String
deriving DecidableEq

/-- MessageDeltaWrapper: the message_delta payload shape.
    Usage is a *Usage in Go (optional), hence Option. -/
structure MessageDeltaWrapper where
  Type' : String
  Delta : MessageDelta
  Usage : Option Anthropic.Usage
deriving DecidableEq

/-- TextDelta: the inner delta of content_block_delta. -/
structure TextDelta where
  Type' : String
  Text : String
deriving DecidableEq

/-- ContentBlockDelta: the content_block_delta payload shape. -/
structure ContentBlockDelta where
  Type' : String
  Index : Int
  Delta : TextDelta
deriving DecidableEq

/-- MessageStreamEvent: the output event struct, reused across pulls.
    Message, Delta, ContentBlock are pointers in Go, hence Option. -/
structure MessageStreamEvent where
  Type' : StreamEvent
  Message : Option Anthropic.Message
  Delta : Option MessageDelta
  ContentBlock : Option Anthropic.ContentBlock
  Index : Int
deriving DecidableEq

/-- Go zero value of Usage. -/
def Usage.zero : Usage := { InputTokens := 0, OutputTokens := 0 }

/-- Go zero value of ContentBlock. -/
def ContentBlock.zero : ContentBlock := { Type' := "", Text := "" }

/-- Go zero value of Message. -/
def Message.zero : Message :=
  { ID := "", Type' := "", Role := "", Content := [], Model := ""
  , StopReason := "", StopSequence := "", Usage := Usage.zero }

/-- Go zero value of MessageDelta. -/
def MessageDelta.zero : MessageDelta := { StopReason := "", StopSequence := none }

/-- Go zero value of MessageDeltaWrapper (`var delta MessageDeltaWrapper`). -/
def MessageDeltaWrapper.zero : MessageDeltaWrapper :=
  { Type' := "", Delta := MessageDelta.zero, Usage := none }

/-- Go zero value of TextDelta. -/
def TextDelta.zero : TextDelta := { Type' := "", Text := "" }

/-- Go zero value of ContentBlockDelta (`var delta ContentBlockDelta`). -/
def ContentBlockDelta.zero : ContentBlockDelta :=
  { Type' := "", Index := 0, Delta := TextDelta.zero }

/-- Go zero value of MessageStreamEvent. -/
def MessageStreamEvent.zero : MessageStreamEvent :=
  { Type' := "", Message := none, Delta := none, ContentBlock := none, Index := 0 }

/-- JSON values, the model of what encoding/json parses. -/
inductive Json where
  | null : Json
  | bool (b : Bool) : Json
  | num (n : Int) : Json
  | str (s : String) : Json
  | arr (items : List Json) : Json
  | obj (fields : List (String × Json)) : Json

/-- Skip JSON whitespace. -/
def jsonSkipWs : List Char → List Char
  | [] => []
  | c :: cs =>
    if c = ' ' ∨ c = '\t' ∨ c = '\n' ∨ c = '\r' then jsonSkipWs cs else c :: cs

/-- Parse the body of a JSON string literal after the opening quote,
    returning the decoded characters and the input after the closing
    quote.  Only the escapes that can occur in the payloads at hand are
    supported; unsupported input fails. -/
def jsonParseStringBody : List Char → Option (List Char × List Char)
  | [] => none
  | c :: cs =>
    if c = '"' then some ([], cs)
    else if c = '\\' then
      match cs with
      | [] => none
      | e :: cs' =>
        let dec : Option Char :=
          if e = '"' then some '"'
          else if e = '\\' then some '\\'
          else if e = '/' then some '/'
          else if e = 'n' then some '\n'
          else if e = 't' then some '\t'
          else if e = 'r' then some '\r'
          else none
        match dec with
        | none => none
        | some d =>
          match jsonParseStringBody cs' with
          | none => none
          | some (body, rest) => some (d :: body, rest)
    else
      match jsonParseStringBody cs with
      | none => none
      | some (body, rest) => some (c :: body, rest)

/-- Parse a run of decimal digits. -/
def jsonParseDigits : List Char → List Char → (List Char × List Char)
  | acc, [] => (acc, [])
  | acc, c :: cs =>
    if c.isDigit then jsonParseDigits (acc ++ [c]) cs else (acc, c :: cs)

/-- Digits to a natural number value. -/
def digitsToNat : List Char → Nat → Nat
  | [], acc => acc
  | c :: cs, acc => digitsToNat cs (acc * 10 + (c.toNat - 48))

mutual

/-- Parse one JSON value; fuel bounds recursion depth. -/
def jsonParseVal : Nat → List Char → Option (Json × List Char)
  | 0, _ => none
  | fuel + 1, input =>
    match jsonSkipWs input with
    | [] => none
    | c :: cs =>
      if c = '{' then
        match jsonSkipWs cs with
        | '}' :: rest => some (.obj [], rest)
        | cs' => match jsonParseFields fuel cs' with
          | none => none
          | some (fs, rest) => some (.obj fs, rest)
      else if c = '[' then
        match jsonSkipWs cs with
        | ']' :: rest => some (.arr [], rest)
        | cs' => match jsonParseItems fuel cs' with
          | none => none
          | some (items, rest) => some (.arr items, rest)
      else if c = '"' then
        match jsonParseStringBody cs with
        | none => none
        | some (body, rest) => some (.str (String.mk body), rest)
      else if c = 't' then
        match cs with
        | 'r' :: 'u' :: 'e' :: rest => some (.bool true, rest)
        | _ => none
      else if c = 'f' then
        match cs with
        | 'a' :: 'l' :: 's' :: 'e' :: rest => some (.bool false, rest)
        | _ => none
      else if c = 'n' then
        match cs with
        | 'u' :: 'l' :: 'l' :: rest => some (.null, rest)
        | _ => none
      else if c = '-' then
        match jsonParseDigits [] cs with
        | ([], _) => none
        | (ds, rest) => some (.num (-(Int.ofNat (digitsToNat ds 0))), rest)
      else if c.isDigit then
        match jsonParseDigits [] (c :: cs) with
        | ([], _) => none
        | (ds, rest) => some (.num (Int.ofNat (digitsToNat ds 0)), rest)
      else none

/-- Parse a non-empty comma-separated field list of a JSON object,
    up to and including the closing brace. -/
def jsonParseFields : Nat → List Char → Option (List (String × Json) × List Char)
  | 0, _ => none
  | fuel + 1, input =>
    match jsonSkipWs input with
    | '"' :: cs =>
      match jsonParseStringBody cs with
      | none => none
      | some (key, afterKey) =>
        match jsonSkipWs afterKey with
        | ':' :: afterColon =>
          match jsonParseVal fuel afterColon with
          | none => none
          | some (v, afterVal) =>
            match jsonSkipWs afterVal with
            | ',' :: afterComma =>
              match jsonParseFields fuel afterComma with
              | none => none
              | some (fs, rest) => some ((String.mk key, v) :: fs, rest)
            | '}' :: rest => some ([(String.mk key, v)], rest)
            | _ => none
        | _ => none
    | _ => none

/-- Parse a non-empty comma-separated item list of a JSON array,
    up to and including the closing bracket. -/
def jsonParseItems : Nat → List Char → Option (List Json × List Char)
  | 0, _ => none
  | fuel + 1, input =>
    match jsonParseVal fuel input with
    | none => none
    | some (v, afterVal) =>
      match jsonSkipWs afterVal with
      | ',' :: afterComma =>
        match jsonParseItems fuel afterComma with
        | none => none
        | some (items, rest) => some (v :: items, rest)
      | ']' :: rest => some ([v], rest)
      | _ => none

end

/-- Parse a complete JSON document: one value, optionally surrounded by
    whitespace, with nothing after it (json.Unmarshal rejects trailing
    garbage other than whitespace). -/
def Json.parse (s : String) : Option Json :=
  match jsonParseVal (2 * s.length + 8) s.data with
  | none => none
  | some (v, rest) =>
    match jsonSkipWs rest with
    | [] => some v
    | _ => none

/-- json.Unmarshal of a JSON value into a string field: a JSON string
    replaces the field, null leaves it unchanged, anything else is a
    type error. -/
def jsonStringField (cur : String) : Json → Except Unit String
  | .str s => .ok s
  | .null => .ok cur
  | _ => .error ()

/-- json.Unmarshal of a JSON value into an int field. -/
def jsonIntField (cur : Int) : Json → Except Unit Int
  | .num n => .ok n
  | .null => .ok cur
  | _ => .error ()

/-- json.Unmarshal of a JSON value into a pointer-to-struct field:
    null stores nil; otherwise a nil pointer is first allocated as the
    zero value and the JSON is decoded into the pointed-at value. -/
def jsonPtrField (cur : Option α) (zero : α) (into : α → Json → Except Unit α) :
    Json → Except Unit (Option α)
  | .null => .ok none
  | j => (into (cur.getD zero) j).map some

/-- json.Unmarshal into an existing Usage value (field tags
    input_tokens / output_tokens). -/
def Usage.unmarshalInto (u : Usage) : Json → Except Unit Usage
  | .null => .ok u
  | .obj fs =>
    fs.foldlM (fun acc kv =>
      if kv.1 = "input_tokens" then
        (jsonIntField acc.InputTokens kv.2).map (fun n => { acc with InputTokens := n })
      else if kv.1 = "output_tokens" then
        (jsonIntField acc.OutputTokens kv.2).map (fun n => { acc with OutputTokens := n })
      else .ok acc) u
  | _ => .error ()

/-- json.Unmarshal into an existing ContentBlock value (field tags
    type / text). -/
def ContentBlock.unmarshalInto (cb : ContentBlock) : Json → Except Unit ContentBlock
  | .null => .ok cb
  | .obj fs =>
    fs.foldlM (fun acc kv =>
      if kv.1 = "type" then
        (jsonStringField acc.Type' kv.2).map (fun s => { acc with Type' := s })
      else if kv.1 = "text" then
        (jsonStringField acc.Text kv.2).map (fun s => { acc with Text := s })
      else .ok acc) cb
  | _ => .error ()

/-- json.Unmarshal into an existing Message value (field tags id, type,
    role, content, model, stop_reason, stop_sequence, usage).  A JSON
    array under content replaces the slice, each element decoded from
    the zero ContentBlock; null under content stores the nil slice. -/
def Message.unmarshalInto (m : Message) : Json → Except Unit Message
  | .null => .ok m
  | .obj fs =>
    fs.foldlM (fun acc kv =>
      if kv.1 = "id" then
        (jsonStringField acc.ID kv.2).map (fun s => { acc with ID := s })
      else if kv.1 = "type" then
        (jsonStringField acc.Type' kv.2).map (fun s => { acc with Type' := s })
      else if kv.1 = "role" then
        (jsonStringField acc.Role kv.2).map (fun s => { acc with Role := s })
      else if kv.1 = "content" then
        match kv.2 with
        | .null => .ok { acc with Content := [] }
        | .arr items =>
          (items.mapM (ContentBlock.unmarshalInto ContentBlock.zero)).map
            (fun cbs => { acc with Content := cbs })
        | _ => .error ()
      else if kv.1 = "model" then
        (jsonStringField acc.Model kv.2).map (fun s => { acc with Model := s })
      else if kv.1 = "stop_reason" then
        (jsonStringField acc.StopReason kv.2).map (fun s => { acc with StopReason := s })
      else if kv.1 = "stop_sequence" then
        (jsonStringField acc.StopSequence kv.2).map (fun s => { acc with StopSequence := s })
      else if kv.1 = "usage" then
        (Usage.unmarshalInto acc.Usage kv.2).map (fun u => { acc with Usage := u })
      else .ok acc) m
  | _ => .error ()

/-- json.Unmarshal into an existing MessageDelta value (field tags
    stop_reason / stop_sequence, the latter a *string). -/
def MessageDelta.unmarshalInto (d : MessageDelta) : Json → Except Unit MessageDelta
  | .null => .ok d
  | .obj fs =>
    fs.foldlM (fun acc kv =>
      if kv.1 = "stop_reason" then
        (jsonStringField acc.StopReason kv.2).map (fun s => { acc with StopReason := s })
      else if kv.1 = "stop_sequence" then
        match kv.2 with
        | .null => .ok { acc with StopSequence := none }
        | .str s => .ok { acc with StopSequence := some s }
        | _ => .error ()
      else .ok acc) d
  | _ => .error ()

/-- json.Unmarshal into an existing MessageDeltaWrapper value (field
    tags type, delta, usage; usage is a *Usage). -/
def MessageDeltaWrapper.unmarshalInto (w : MessageDeltaWrapper) :
    Json → Except Unit MessageDeltaWrapper
  | .null => .ok w
  | .obj fs =>
    fs.foldlM (fun acc kv =>
      if kv.1 = "type" then
        (jsonStringField acc.Type' kv.2).map (fun s => { acc with Type' := s })
      else if kv.1 = "delta" then
        (MessageDelta.unmarshalInto acc.Delta kv.2).map (fun d => { acc with Delta := d })
      else if kv.1 = "usage" then
        (jsonPtrField acc.Usage Usage.zero Usage.unmarshalInto kv.2).map
          (fun u => { acc with Usage := u })
      else .ok acc) w
  | _ => .error ()

/-- json.Unmarshal into an existing TextDelta value (field tags
    type / text). -/
def TextDelta.unmarshalInto (d : TextDelta) : Json → Except Unit TextDelta
  | .null => .ok d
  | .obj fs =>
    fs.foldlM (fun acc kv =>
      if kv.1 = "type" then
        (jsonStringField acc.Type' kv.2).map (fun s => { acc with Type' := s })
      else if kv.1 = "text" then
        (jsonStringField acc.Text kv.2).map (fun s => { acc with Text := s })
      else .ok acc) d
  | _ => .error ()

/-- json.Unmarshal into an existing ContentBlockDelta value (field
    tags type, index, delta). -/
def ContentBlockDelta.unmarshalInto (d : ContentBlockDelta) :
    Json → Except Unit ContentBlockDelta
  | .null => .ok d
  | .obj fs =>
    fs.foldlM (fun acc kv =>
      if kv.1 = "type" then
        (jsonStringField acc.Type' kv.2).map (fun s => { acc with Type' := s })
      else if kv.1 = "index" then
        (jsonIntField acc.Index kv.2).map (fun n => { acc with Index := n })
      else if kv.1 = "delta" then
        (TextDelta.unmarshalInto acc.Delta kv.2).map (fun t => { acc with Delta := t })
      else .ok acc) d
  | _ => .error ()

/-- json.Unmarshal into the existing MessageStreamEvent value (field
    tags type, message, delta, content_block, index; the middle three
    are pointers). -/
def MessageStreamEvent.unmarshalInto (ev : MessageStreamEvent) :
    Json → Except Unit MessageStreamEvent
  | .null => .ok ev
  | .obj fs =>
    fs.foldlM (fun acc kv =>
      if kv.1 = "type" then
        (jsonStringField acc.Type' kv.2).map (fun s => { acc with Type' := s })
      else if kv.1 = "message" then
        (jsonPtrField acc.Message Message.zero Message.unmarshalInto kv.2).map
          (fun m => { acc with Message := m })
      else if kv.1 = "delta" then
        (jsonPtrField acc.Delta MessageDelta.zero MessageDelta.unmarshalInto kv.2).map
          (fun d => { acc with Delta := d })
      else if kv.1 = "content_block" then
        (jsonPtrField acc.ContentBlock ContentBlock.zero ContentBlock.unmarshalInto kv.2).map
          (fun cb => { acc with ContentBlock := cb })
      else if kv.1 = "index" then
        (jsonIntField acc.Index kv.2).map (fun n => { acc with Index := n })
      else .ok acc) ev
  | _ => .error ()

/-- json.Unmarshal([]byte(data.String()), &s.event): parse and merge
    into the existing event value. -/
def unmarshalMessageStreamEvent (ev : MessageStreamEvent) (data : String) :
    Except Unit MessageStreamEvent :=
  match Json.parse data with
  | none => .error ()
  | some j => MessageStreamEvent.unmarshalInto ev j

/-- var delta MessageDeltaWrapper; json.Unmarshal([]byte(data.String()), &delta). -/
def unmarshalMessageDeltaWrapper (data : String) : Except Unit MessageDeltaWrapper :=
  match Json.parse data with
  | none => .error ()
  | some j => MessageDeltaWrapper.unmarshalInto MessageDeltaWrapper.zero j

/-- var contentBlock ContentBlock; json.Unmarshal([]byte(data.String()), &contentBlock). -/
def unmarshalContentBlock (data : String) : Except Unit ContentBlock :=
  match Json.parse data with
  | none => .error ()
  | some j => ContentBlock.unmarshalInto ContentBlock.zero j

/-- var delta ContentBlockDelta; json.Unmarshal([]byte(data.String()), &delta). -/
def unmarshalContentBlockDelta (data : String) : Except Unit ContentBlockDelta :=
  match Json.parse data with
  | none => .error ()
  | some j => ContentBlockDelta.unmarshalInto ContentBlockDelta.zero j

/-- The whitespace characters strings.TrimSpace removes (the ASCII
    subset of unicode.IsSpace; no other byte occurs in an SSE line). -/
def isSpaceChar (c : Char) : Bool :=
  c == ' ' || c == '\t' || c == '\n' || c == '\r' || c == Char.ofNat 11 || c == Char.ofNat 12

/-- strings.TrimSpace: drop whitespace from both ends. -/
def trimSpace (s : String) : String :=
  String.mk (((s.data.dropWhile isSpaceChar).reverse.dropWhile isSpaceChar).reverse)

/-- When the second list starts with the first, the remainder after it. -/
def dropSep : List Char → List Char → Option (List Char)
  | [], l => some l
  | _ :: _, [] => none
  | a :: as, b :: bs => if a = b then dropSep as bs else none

/-- Split at the first occurrence of sep: the part before it and the
    part after it, or none when sep does not occur. -/
def splitFirstAt (sep : List Char) : List Char → Option (List Char × List Char)
  | [] => none
  | c :: cs =>
    match dropSep sep (c :: cs) with
    | some post => some ([], post)
    | none =>
      match splitFirstAt sep cs with
      | some (pre, post) => some (c :: pre, post)
      | none => none

/-- strings.SplitN(s, sep, 2): split around the first instance of sep;
    one part when sep does not occur, otherwise the prefix and the
    remainder. -/
def splitN2 (s sep : String) : List String :=
  match splitFirstAt sep.data s.data with
  | none => [s]
  | some (pre, post) => [String.mk pre, String.mk post]

/-- Result of the line-reading loop of Recv (source lines 155-189):
    either the loop broke out (blank line or io.EOF) holding the
    buffered event name and data, or a non-blank line lacked the
    field separator. -/
inductive FrameResult where
  | finished (eventType : StreamEvent) (data : String) (rest : List String)
  | malformed (line : String) (rest : List String)
deriving DecidableEq

/-- The for-loop of Recv: read a line; io.EOF breaks; a blank line
    breaks unless the buffered event is ping, in which case the data
    builder is reset and reading continues; otherwise split on the
    first ": " into field and value, a missing separator is an
    invalid-SSE error, field event sets the event name, field data
    appends value plus a newline, other fields are ignored. -/
def recvLoop : List String → StreamEvent → String → FrameResult
  | [], eventType, data => .finished eventType data []
  | l :: rest, eventType, data =>
    let line := trimSpace l
    if line = "" then
      if eventType = StreamEventPing then
        recvLoop rest eventType ""
      else
        .finished eventType data rest
    else
      match splitN2 line ": " with
      | [f, v] =>
        if f = "event" then recvLoop rest v data
        else if f = "data" then recvLoop rest eventType (data ++ v ++ "\n")
        else recvLoop rest eventType data
      | _ => .malformed line rest

/-- The error results Recv can produce. -/
inductive RecvError where
  | invalidSSE (line : String)
  | decodeError (eventType : StreamEvent)
  | streamError (payload : String)
  | unknownEvent (eventType : StreamEvent)
deriving DecidableEq

/-- The outcome of one Recv call: a decoded event pointer with nil
    error, an error, or a Go runtime fault (nil-pointer dereference). -/
inductive RecvOutcome where
  | ok (ev : MessageStreamEvent)
  | err (e : RecvError)
  | fault
deriving DecidableEq

/-- The event-dispatch switch of Recv (source lines 191-230), entered
    only when data.Len() > 0; s.event.Type has already been set to the
    raw event name.  Returns the outcome together with the event value
    left in the stream state. -/
def recvDispatch (ev0 : MessageStreamEvent) (ignoreUnknownEvents : Bool)
    (eventType : StreamEvent) (data : String) : RecvOutcome × MessageStreamEvent :=
  let ev := { ev0 with Type' := eventType }
  if eventType = StreamEventMessageStart ∨ eventType = StreamEventMessageStop then
    match unmarshalMessageStreamEvent ev data with
    | .error _ => (.err (.decodeError eventType), ev)
    | .ok ev' => (.ok ev', ev')
  else if eventType = StreamEventMessageDelta then
    match unmarshalMessageDeltaWrapper data with
    | .error _ => (.err (.decodeError eventType), ev)
    | .ok w =>
      let ev := { ev with Delta := some w.Delta }
      match ev.Message with
      | some m =>
        match w.Usage with
        | none => (.fault, ev)
        | some u =>
          let m' := { m with
            Usage := { m.Usage with OutputTokens := m.Usage.OutputTokens + u.OutputTokens } }
          let ev' := { ev with Message := some m' }
          (.ok ev', ev')
      | none => (.ok ev, ev)
  else if eventType = StreamEventContentBlockStart ∨ eventType = StreamEventContentBlockStop then
    match unmarshalContentBlock data with
    | .error _ => (.err (.decodeError eventType), ev)
    | .ok cb =>
      let ev' := { ev with ContentBlock := some cb }
      (.ok ev', ev')
  else if eventType = StreamEventContentBlockDelta then
    match unmarshalContentBlockDelta data with
    | .error _ => (.err (.decodeError eventType), ev)
    | .ok d =>
      let ev' := { ev with
        ContentBlock := some { Type' := d.Delta.Type', Text := d.Delta.Text }
        Index := d.Index }
      (.ok ev', ev')
  else if eventType = StreamEventError then
    (.err (.streamError data), ev)
  else if ignoreUnknownEvents then
    (.ok ev, ev)
  else
    (.err (.unknownEvent eventType), ev)

/-- MessageStream: remaining input lines, the reused event struct, and
    the unknown-event tolerance flag.  The http.Response field of the
    source carries no decoder state and is omitted. -/
structure MessageStream where
  lines : List String
  event : MessageStreamEvent
  ignoreUnknownEvents : Bool
deriving DecidableEq

/-- Recv: run the line loop, then, when any data was buffered, set the
    event type and dispatch; with no buffered data return the existing
    event value with nil error. -/
def MessageStream.Recv (s : MessageStream) : RecvOutcome × MessageStream :=
  match recvLoop s.lines "" "" with
  | .malformed line rest => (.err (.invalidSSE line), { s with lines := rest })
  | .finished eventType data rest =>
    if data.length > 0 then
      let (out, ev') := recvDispatch s.event s.ignoreUnknownEvents eventType data
      (out, { s with lines := rest, event := ev' })
    else
      (.ok s.event, { s with lines := rest })

/-- Close closes the response body; no decoder state changes. -/
def MessageStream.Close (s : MessageStream) : MessageStream := s

/-- ErrorUnknownEvent clears the tolerance flag. -/
def MessageStream.ErrorUnknownEvent (s : MessageStream) : MessageStream :=
  { s with ignoreUnknownEvents := false }

/-- The HTTP response handed to StreamMessage by the transport. -/
structure HTTPResponse where
  StatusCode : Nat
  Body : List String
deriving DecidableEq

/-- StreamMessage after the transport returned a response (source lines
    124-133): a status at or above http.StatusBadRequest (400) closes
    the body and yields an immediate error; otherwise the stream handle
    is created over the body with tolerance enabled. -/
def StreamMessage (resp : HTTPResponse) : Except String MessageStream :=
  if resp.StatusCode ≥ 400 then
    .error ("anthropic: " ++ toString resp.StatusCode)
  else
    .ok { lines := resp.Body
        , event := MessageStreamEvent.zero
        , ignoreUnknownEvents := true }

/-- Iterate Recv n times, keeping only the stream state. -/
def pullN (s : MessageStream) : Nat → MessageStream
  | 0 => s
  | n + 1 => pullN (s.Recv).2 n

/-- The text fragment a caller accumulating content reads off one pull
    (the loop body of the repository test: m.ContentBlock.Text when
    present). -/
def recvText (s : MessageStream) : String :=
  match (s.Recv).1 with
  | .ok ev =>
    match ev.ContentBlock with
    | some cb => cb.Text
    | none => ""
  | _ => ""

/-- The eight recognized event kinds. -/
def recognizedEventNames : List String :=
  [StreamEventPing, StreamEventError, StreamEventMessageStart, StreamEventMessageStop,
   StreamEventMessageDelta, StreamEventContentBlockStart, StreamEventContentBlockStop,
   StreamEventContentBlockDelta]

/-- A line that survives TrimSpace unchanged, is non-blank, and parses
    as the given field and value. -/
def IsFieldLine (l f v : String) : Prop :=
  trimSpace l = l ∧ l ≠ "" ∧ splitN2 l (": ") = [f, v]

instance (l f v : String) : Decidable (IsFieldLine l f v) := by
  unfold IsFieldLine; infer_instance

theorem recvLoop_event_line (l n : String) (L : List String) (et d : String)
    (ht : trimSpace l = l) (hne : l ≠ "") (hs : splitN2 l (": ") = ["event", n]) :
    recvLoop (l :: L) et d = recvLoop L n d := by
  simp [recvLoop, ht, hne, hs]

theorem recvLoop_data_line (l v : String) (L : List String) (et d : String)
    (ht : trimSpace l = l) (hne : l ≠ "") (hs : splitN2 l (": ") = ["data", v]) :
    recvLoop (l :: L) et d = recvLoop L et (d ++ v ++ "\n") := by
  simp [recvLoop, ht, hne, hs]

theorem recvLoop_blank (L : List String) (et d : String) (het : et ≠ StreamEventPing) :
    recvLoop ("" :: L) et d = .finished et d L := by
  have h : trimSpace "" = "" := rfl
  simp [recvLoop, h, het]

theorem recvLoop_blank_ping (L : List String) (d : String) :
    recvLoop ("" :: L) StreamEventPing d = recvLoop L StreamEventPing "" := by
  have h : trimSpace "" = "" := rfl
  simp [recvLoop, h]

theorem str_append_newline_len_pos (d : String) : 0 < (d ++ "\n").length := by
  have h1 : ("\n" : String).length = 1 := rfl
  rw [String.length_append, h1]; omega

/-- One pull over a complete single-data-line frame followed by a blank
    line: the loop assembles the frame and Recv dispatches on it. -/
theorem recv_frame (s : MessageStream) (le ld n d : String) (rest : List String)
    (hl : s.lines = le :: ld :: "" :: rest)
    (he : IsFieldLine le "event" n) (hd : IsFieldLine ld "data" d)
    (hn : n ≠ StreamEventPing) :
    s.Recv = ((recvDispatch s.event s.ignoreUnknownEvents n (d ++ "\n")).1,
      { s with
        lines := rest
        event := (recvDispatch s.event s.ignoreUnknownEvents n (d ++ "\n")).2 }) := by
  obtain ⟨het, hene, hesp⟩ := he
  obtain ⟨hdt, hdne, hdsp⟩ := hd
  unfold MessageStream.Recv
  rw [hl, recvLoop_event_line le n _ _ _ het hene hesp,
    recvLoop_data_line ld d _ _ _ hdt hdne hdsp,
    recvLoop_blank _ _ _ hn]
  have hempty : ("" : String) ++ d = d := rfl
  rw [hempty]
  simp [str_append_newline_len_pos d]
  intro _ h2
  exact absurd h2 (by decide)

theorem recvDispatch_start_stop (ev : MessageStreamEvent) (b : Bool) (n data : String)
    (hn : n = StreamEventMessageStart ∨ n = StreamEventMessageStop)
    (ev' : MessageStreamEvent)
    (hok : unmarshalMessageStreamEvent { ev with Type' := n } data = .ok ev') :
    recvDispatch ev b n data = (.ok ev', ev') := by
  simp only [recvDispatch]
  rw [if_pos hn, hok]

theorem recvDispatch_delta_ok (ev : MessageStreamEvent) (b : Bool) (data : String)
    (w : MessageDeltaWrapper) (m : Message) (u : Usage)
    (hw : unmarshalMessageDeltaWrapper data = .ok w)
    (hm : ev.Message = some m) (hu : w.Usage = some u) :
    recvDispatch ev b StreamEventMessageDelta data =
      (.ok { ev with
              Type' := StreamEventMessageDelta
              Delta := some w.Delta
              Message := some { m with Usage := { m.Usage with
                OutputTokens := m.Usage.OutputTokens + u.OutputTokens } } },
        { ev with
          Type' := StreamEventMessageDelta
          Delta := some w.Delta
          Message := some { m with Usage := { m.Usage with
            OutputTokens := m.Usage.OutputTokens + u.OutputTokens } } }) := by
  have h0 : recvDispatch ev b StreamEventMessageDelta data =
      (match unmarshalMessageDeltaWrapper data with
       | .error _ =>
         (.err (.decodeError StreamEventMessageDelta), { ev with Type' := StreamEventMessageDelta })
       | .ok w =>
         let ev1 := { ev with Type' := StreamEventMessageDelta, Delta := some w.Delta }
         match ev1.Message with
         | some m =>
           match w.Usage with
           | none => (.fault, ev1)
           | some u =>
             let m' := { m with Usage := { m.Usage with
               OutputTokens := m.Usage.OutputTokens + u.OutputTokens } }
             let ev2 := { ev1 with Message := some m' }
             (.ok ev2, ev2)
         | none => (.ok ev1, ev1)) := rfl
  rw [h0, hw]
  simp [hm, hu]

theorem recvDispatch_delta_fault (ev : MessageStreamEvent) (b : Bool) (data : String)
    (w : MessageDeltaWrapper) (m : Message)
    (hw : unmarshalMessageDeltaWrapper data = .ok w)
    (hm : ev.Message = some m) (hu : w.Usage = none) :
    recvDispatch ev b StreamEventMessageDelta data =
      (.fault, { ev with Type' := StreamEventMessageDelta, Delta := some w.Delta }) := by
  have h0 : recvDispatch ev b StreamEventMessageDelta data =
      (match unmarshalMessageDeltaWrapper data with
       | .error _ =>
         (.err (.decodeError StreamEventMessageDelta), { ev with Type' := StreamEventMessageDelta })
       | .ok w =>
         let ev1 := { ev with Type' := StreamEventMessageDelta, Delta := some w.Delta }
         match ev1.Message with
         | some m =>
           match w.Usage with
           | none => (.fault, ev1)
           | some u =>
             let m' := { m with Usage := { m.Usage with
               OutputTokens := m.Usage.OutputTokens + u.OutputTokens } }
             let ev2 := { ev1 with Message := some m' }
             (.ok ev2, ev2)
         | none => (.ok ev1, ev1)) := rfl
  rw [h0, hw]
  simp [hm, hu]

theorem recvDispatch_content_block_delta (ev : MessageStreamEvent) (b : Bool) (data : String)
    (cbd : ContentBlockDelta)
    (hok : unmarshalContentBlockDelta data = .ok cbd) :
    recvDispatch ev b StreamEventContentBlockDelta data =
      (.ok { ev with
              Type' := StreamEventContentBlockDelta
              ContentBlock := some { Type' := cbd.Delta.Type', Text := cbd.Delta.Text }
              Index := cbd.Index },
        { ev with
          Type' := StreamEventContentBlockDelta
          ContentBlock := some { Type' := cbd.Delta.Type', Text := cbd.Delta.Text }
          Index := cbd.Index }) := by
  have h0 : recvDispatch ev b StreamEventContentBlockDelta data =
      (match unmarshalContentBlockDelta data with
       | .error _ =>
         (.err (.decodeError StreamEventContentBlockDelta),
           { ev with Type' := StreamEventContentBlockDelta })
       | .ok d =>
         let ev1 := { ev with
           Type' := StreamEventContentBlockDelta
           ContentBlock := some { Type' := d.Delta.Type', Text := d.Delta.Text }
           Index := d.Index }
         (.ok ev1, ev1)) := rfl
  rw [h0, hok]

theorem recvDispatch_error_event (ev : MessageStreamEvent) (b : Bool) (data : String) :
    recvDispatch ev b StreamEventError data =
      (.err (.streamError data), { ev with Type' := StreamEventError }) := rfl

theorem recvDispatch_unknown (ev : MessageStreamEvent) (b : Bool) (n data : String)
    (hn : n ∉ recognizedEventNames) :
    recvDispatch ev b n data =
      if b then (.ok { ev with Type' := n }, { ev with Type' := n })
      else (.err (.unknownEvent n), { ev with Type' := n }) := by
  have h1 : ¬(n = StreamEventMessageStart ∨ n = StreamEventMessageStop) := by
    rintro (h | h) <;> exact hn (by rw [h]; decide)
  have h2 : ¬(n = StreamEventMessageDelta) := fun h => hn (by rw [h]; decide)
  have h3 : ¬(n = StreamEventContentBlockStart ∨ n = StreamEventContentBlockStop) := by
    rintro (h | h) <;> exact hn (by rw [h]; decide)
  have h4 : ¬(n = StreamEventContentBlockDelta) := fun h => hn (by rw [h]; decide)
  have h5 : ¬(n = StreamEventError) := fun h => hn (by rw [h]; decide)
  simp only [recvDispatch]
  rw [if_neg h1, if_neg h2, if_neg h3, if_neg h4, if_neg h5]

/-- A message_start payload whose message starts with a non-zero
    output-token count. -/
def msgStartPayload : String :=
  "\x7b\"type\":\"message_start\",\"message\":\x7b\"id\":\"m1\",\"type\":\"message\",\"role\":\"assistant\",\"content\":[],\"model\":\"claude-3-sonnet-20240229\",\"usage\":\x7b\"input_tokens\":10,\"output_tokens\":5\x7d\x7d\x7d"

/-- A message_delta payload carrying an incremental usage of one
    output token. -/
def msgDeltaPayload : String :=
  "\x7b\"type\":\"message_delta\",\"delta\":\x7b\"stop_reason\":\"end_turn\"\x7d,\"usage\":\x7b\"output_tokens\":1\x7d\x7d"

/-- A message_delta payload that omits the optional usage field. -/
def msgDeltaNoUsagePayload : String :=
  "\x7b\"type\":\"message_delta\",\"delta\":\x7b\"stop_reason\":\"end_turn\"\x7d\x7d"

/-- The usual message_stop payload: a type tag and nothing else. -/
def msgStopPayload : String := "\x7b\"type\":\"message_stop\"\x7d"

/-- The message carried by msgStartPayload. -/
def sampleMessage : Message :=
  { ID := "m1"
  , Type' := "message"
  , Role := "assistant"
  , Content := []
  , Model := "claude-3-sonnet-20240229"
  , StopReason := ""
  , StopSequence := ""
  , Usage := { InputTokens := 10, OutputTokens := 5 } }

/-- The output event as it stands after a pull of msgStartPayload. -/
def sampleEvent : MessageStreamEvent :=
  { Type' := "message_start"
  , Message := some sampleMessage
  , Delta := none
  , ContentBlock := none
  , Index := 0 }

/-- C1: the spec and the repository test expect that a pull hitting
    end-of-stream with no buffered data reports the stream-exhausted
    signal (io.EOF).  Evaluating the code at that input shows Recv
    instead swallows io.EOF, skips the dispatch because no data was
    buffered, and returns the event left over from the previous pull
    with a nil error. -/
theorem recv_eof_without_data_returns_prior_event :
    MessageStream.Recv { lines := [], event := sampleEvent, ignoreUnknownEvents := true } =
      (.ok sampleEvent,
        { lines := [], event := sampleEvent, ignoreUnknownEvents := true }) := rfl

/-- C3: evaluating Recv on a message_delta frame whose payload omits
    the optional usage field, while the output event holds a Message
    from a prior message_start, reaches the unguarded dereference of
    the nil usage pointer: the pull faults instead of completing. -/
theorem recv_delta_without_usage_faults :
    (MessageStream.Recv
      { lines := ["event: message_delta", "data: " ++ msgDeltaNoUsagePayload, ""]
      , event := sampleEvent, ignoreUnknownEvents := true }).1 = .fault := rfl

/-- C9 counterexample: 302 is not a 2xx status, yet StreamMessage
    opens the stream and hands the body to the decoder, because the
    source only rejects statuses at or above 400. -/
theorem stream_message_redirect_counterexample :
    ¬(200 ≤ 302 ∧ 302 ≤ 299) ∧
    StreamMessage { StatusCode := 302, Body := [] } =
      .ok { lines := [], event := MessageStreamEvent.zero, ignoreUnknownEvents := true } :=
  ⟨by decide, rfl⟩

/-- C9 amended: StreamMessage returns an immediate request error, and
    no stream handle, exactly for responses with status 400 or above;
    any status below 400 (including redirects) opens the stream over
    the response body. -/
theorem stream_message_status_threshold (resp : HTTPResponse) :
    (resp.StatusCode ≥ 400 →
      StreamMessage resp = .error ("anthropic: " ++ toString resp.StatusCode)) ∧
    (resp.StatusCode < 400 →
      StreamMessage resp =
        .ok { lines := resp.Body, event := MessageStreamEvent.zero
            , ignoreUnknownEvents := true }) := by
  constructor
  · intro h
    simp [StreamMessage, h]
  · intro h
    have h' : ¬resp.StatusCode ≥ 400 := by omega
    simp [StreamMessage, h']

theorem stream_message_status_threshold_witness :
    StreamMessage { StatusCode := 404, Body := [] } = .error ("anthropic: " ++ toString 404) ∧
    StreamMessage { StatusCode := 200, Body := ["event: ping", ""] } =
      .ok { lines := ["event: ping", ""], event := MessageStreamEvent.zero
          , ignoreUnknownEvents := true } :=
  ⟨(stream_message_status_threshold { StatusCode := 404, Body := [] }).1 (by decide),
   (stream_message_status_threshold { StatusCode := 200, Body := ["event: ping", ""] }).2 (by decide)⟩

theorem recv_preserves_tolerance_flag (s : MessageStream) :
    ((s.Recv).2).ignoreUnknownEvents = s.ignoreUnknownEvents := by
  unfold MessageStream.Recv
  cases hrec : recvLoop s.lines "" "" with
  | malformed line rest => simp
  | finished et data rest =>
    by_cases hlen : data.length > 0 <;> simp [hlen]

/-- C10: every handle StreamMessage returns carries tolerance enabled;
    ErrorUnknownEvent sets the flag to false; Close and Recv leave it
    unchanged, so nothing re-enables it for the life of the handle. -/
theorem tolerance_flag_lifecycle :
    (∀ (resp : HTTPResponse) (s : MessageStream),
      StreamMessage resp = .ok s → s.ignoreUnknownEvents = true) ∧
    (∀ s : MessageStream,
      (MessageStream.ErrorUnknownEvent s).ignoreUnknownEvents = false) ∧
    (∀ s : MessageStream,
      (MessageStream.Close s).ignoreUnknownEvents = s.ignoreUnknownEvents) ∧
    (∀ s : MessageStream,
      ((s.Recv).2).ignoreUnknownEvents = s.ignoreUnknownEvents) := by
  refine ⟨?_, ?_, ?_, recv_preserves_tolerance_flag⟩
  · intro resp s h
    unfold StreamMessage at h
    by_cases hc : resp.StatusCode ≥ 400
    · simp [hc] at h
    · simp [hc] at h
      rw [← h]
  · intro s
    rfl
  · intro s
    rfl

theorem tolerance_flag_lifecycle_witness :
    (({ lines := ["x"], event := MessageStreamEvent.zero, ignoreUnknownEvents := true }
        : MessageStream).ignoreUnknownEvents) = true ∧
    ((MessageStream.ErrorUnknownEvent
        { lines := [], event := MessageStreamEvent.zero, ignoreUnknownEvents := true })
        |> MessageStream.ignoreUnknownEvents) = false := by
  constructor
  · exact (tolerance_flag_lifecycle.1 { StatusCode := 200, Body := ["x"] }
      { lines := ["x"], event := MessageStreamEvent.zero, ignoreUnknownEvents := true }) rfl
  · exact tolerance_flag_lifecycle.2.1 _

/-- C6: a frame with event name error makes Recv return a stream error
    carrying the accumulated data payload, for every possible list of
    buffered frames behind it: the remaining input is left unread, so
    the result is independent of anything that follows the error frame. -/
theorem recv_error_event_terminates (s : MessageStream) (ld d : String) (rest : List String)
    (hl : s.lines = "event: error" :: ld :: "" :: rest)
    (hd : IsFieldLine ld "data" d) :
    (s.Recv).1 = .err (.streamError (d ++ "\n")) ∧ (s.Recv).2.lines = rest := by
  rw [recv_frame s "event: error" ld "error" d rest hl (by decide) hd (by decide),
    recvDispatch_error_event s.event s.ignoreUnknownEvents (d ++ "\n")]
  exact ⟨rfl, rfl⟩

theorem recv_error_event_terminates_witness :
    (MessageStream.Recv
      { lines := ["event: error", "data: \x7b\"detail\":\"overloaded\"\x7d", ""
          , "event: message_stop", "data: " ++ msgStopPayload, ""]
      , event := MessageStreamEvent.zero, ignoreUnknownEvents := true }).1 =
        .err (.streamError ("\x7b\"detail\":\"overloaded\"\x7d" ++ "\n")) ∧
    (MessageStream.Recv
      { lines := ["event: error", "data: \x7b\"detail\":\"overloaded\"\x7d", ""
          , "event: message_stop", "data: " ++ msgStopPayload, ""]
      , event := MessageStreamEvent.zero, ignoreUnknownEvents := true }).2.lines =
        ["event: message_stop", "data: " ++ msgStopPayload, ""] :=
  recv_error_event_terminates _ "data: \x7b\"detail\":\"overloaded\"\x7d"
    "\x7b\"detail\":\"overloaded\"\x7d" _ rfl (by decide)

/-- C5 counterexample: with tolerance enabled, a data-carrying frame
    with the unrecognized name custom_event is returned with the type
    set to the raw name, but the Message decoded by an earlier
    message_start is still present on the returned event, refuting
    "Message, Delta, ContentBlock all absent"; and with tolerance
    disabled, an unrecognized frame with no data line is returned with
    a nil error instead of the unknown-event error. -/
theorem recv_unknown_event_counterexample :
    (MessageStream.Recv
      { lines := ["event: custom_event", "data: \x7b\x7d", ""]
      , event := sampleEvent, ignoreUnknownEvents := true }).1 =
        .ok { sampleEvent with Type' := "custom_event" } ∧
    ({ sampleEvent with Type' := "custom_event" } : MessageStreamEvent).Message =
      some sampleMessage ∧
    some sampleMessage ≠ (none : Option Message) ∧
    (MessageStream.Recv
      { lines := ["event: custom_event", ""]
      , event := sampleEvent, ignoreUnknownEvents := false }).1 = .ok sampleEvent :=
  ⟨rfl, rfl, Option.some_ne_none _, rfl⟩

/-- C5 amended: for a data-carrying frame with an unrecognized event
    name, tolerance enabled returns the output event with its type set
    to the raw name and nothing decoded from the frame (all structured
    fields keep the values of earlier pulls, hence absent on a fresh
    stream), and tolerance disabled fails with the unknown-event error;
    a dataless unrecognized frame skips the dispatch entirely. -/
theorem recv_unknown_event_behavior (s : MessageStream) (le ld n d : String)
    (rest : List String)
    (hl : s.lines = le :: ld :: "" :: rest)
    (he : IsFieldLine le "event" n) (hd : IsFieldLine ld "data" d)
    (hn : n ∉ recognizedEventNames) :
    (s.ignoreUnknownEvents = true →
      s.Recv = (.ok { s.event with Type' := n },
        { s with lines := rest, event := { s.event with Type' := n } })) ∧
    (s.ignoreUnknownEvents = false →
      s.Recv = (.err (.unknownEvent n),
        { s with lines := rest, event := { s.event with Type' := n } })) := by
  have hping : n ≠ StreamEventPing := fun h => hn (by rw [h]; decide)
  rw [recv_frame s le ld n d rest hl he hd hping,
    recvDispatch_unknown s.event s.ignoreUnknownEvents n (d ++ "\n") hn]
  constructor <;> intro hflag <;> rw [hflag] <;> simp

theorem recv_unknown_event_behavior_witness :
    MessageStream.Recv
      { lines := ["event: custom_event", "data: \x7b\x7d", ""]
      , event := MessageStreamEvent.zero, ignoreUnknownEvents := true } =
      (.ok { MessageStreamEvent.zero with Type' := "custom_event" },
        { lines := [], event := { MessageStreamEvent.zero with Type' := "custom_event" }
        , ignoreUnknownEvents := true }) ∧
    MessageStream.Recv
      { lines := ["event: custom_event", "data: \x7b\x7d", ""]
      , event := MessageStreamEvent.zero, ignoreUnknownEvents := false } =
      (.err (.unknownEvent "custom_event"),
        { lines := [], event := { MessageStreamEvent.zero with Type' := "custom_event" }
        , ignoreUnknownEvents := false }) :=
  ⟨(recv_unknown_event_behavior _ "event: custom_event" "data: \x7b\x7d" "custom_event"
      "\x7b\x7d" [] rfl (by decide) (by decide) (by decide)).1 rfl,
   (recv_unknown_event_behavior _ "event: custom_event" "data: \x7b\x7d" "custom_event"
      "\x7b\x7d" [] rfl (by decide) (by decide) (by decide)).2 rfl⟩

/-- C7 counterexample: on a stream holding only the two lines of a ping
    frame and then end-of-stream, the pull loop terminates (the pull
    returns the prior event with a nil error and all input consumed)
    instead of continuing to read within the same pull, refuting the
    claim that a buffered ping never terminates the pull loop. -/
theorem recv_ping_eof_counterexample :
    MessageStream.Recv
      { lines := ["event: ping"], event := sampleEvent, ignoreUnknownEvents := true } =
      (.ok sampleEvent,
        { lines := [], event := sampleEvent, ignoreUnknownEvents := true }) := rfl

/-- C7 amended: a ping frame terminated by a blank line is dropped and
    reading continues within the same pull (a pull on the stream is the
    very pull on the stream without the ping frame, whenever an event
    line follows); a ping only buffered when end-of-stream is reached
    is also never surfaced — the event struct is left untouched — but
    the pull then returns the prior event with a nil error rather than
    continuing to read. -/
theorem recv_ping_never_surfaced (s : MessageStream) (l n : String) (more : List String)
    (he : IsFieldLine l "event" n) :
    (s.lines = "event: ping" :: "" :: l :: more →
      s.Recv = MessageStream.Recv { s with lines := l :: more }) ∧
    (s.lines = ["event: ping"] →
      s.Recv = (.ok s.event, { s with lines := [] })) := by
  constructor
  · intro hl
    unfold MessageStream.Recv
    rw [hl]
    rw [recvLoop_event_line "event: ping" "ping" _ _ _ (by decide) (by decide) (by decide),
      recvLoop_blank_ping,
      recvLoop_event_line l n _ _ _ he.1 he.2.1 he.2.2]
    dsimp only
    rw [recvLoop_event_line l n more "" "" he.1 he.2.1 he.2.2]
  · intro hl
    unfold MessageStream.Recv
    rw [hl, recvLoop_event_line "event: ping" "ping" _ _ _ (by decide) (by decide) (by decide)]
    simp [recvLoop]

theorem recv_ping_never_surfaced_witness :
    MessageStream.Recv
      { lines := ["event: ping", "", "event: message_stop", "data: " ++ msgStopPayload, ""]
      , event := sampleEvent, ignoreUnknownEvents := true } =
      MessageStream.Recv
        { lines := ["event: message_stop", "data: " ++ msgStopPayload, ""]
        , event := sampleEvent, ignoreUnknownEvents := true } ∧
    MessageStream.Recv
      { lines := ["event: ping"], event := MessageStreamEvent.zero
      , ignoreUnknownEvents := true } =
      (.ok MessageStreamEvent.zero,
        { lines := [], event := MessageStreamEvent.zero, ignoreUnknownEvents := true }) :=
  ⟨(recv_ping_never_surfaced _ "event: message_stop" "message_stop"
      ["data: " ++ msgStopPayload, ""] (by decide)).1 rfl,
   (recv_ping_never_surfaced _ "event: x" "x" [] (by decide)).2 rfl⟩

/-- A content_block_delta payload with text fragment A at index 0. -/
def cbdPayloadA : String :=
  "\x7b\"type\":\"content_block_delta\",\"index\":0,\"delta\":\x7b\"type\":\"text_delta\",\"text\":\"A\"\x7d\x7d"

/-- A content_block_delta payload with text fragment B at index 0. -/
def cbdPayloadB : String :=
  "\x7b\"type\":\"content_block_delta\",\"index\":0,\"delta\":\x7b\"type\":\"text_delta\",\"text\":\"B\"\x7d\x7d"

/-- A content_block_delta payload with text fragment C at index 0. -/
def cbdPayloadC : String :=
  "\x7b\"type\":\"content_block_delta\",\"index\":0,\"delta\":\x7b\"type\":\"text_delta\",\"text\":\"C\"\x7d\x7d"

/-- A stream of three content_block_delta frames with fragments A, B, C
    at the same index. -/
def abcStream : MessageStream :=
  { lines := ["event: content_block_delta", "data: " ++ cbdPayloadA, ""
      , "event: content_block_delta", "data: " ++ cbdPayloadB, ""
      , "event: content_block_delta", "data: " ++ cbdPayloadC, ""]
  , event := MessageStreamEvent.zero
  , ignoreUnknownEvents := true }

/-- C8: a content_block_delta frame whose payload decodes to a delta
    carrying a text fragment and a block index makes Recv return the
    event with a content block built from the fragment and with that
    index; and on the concrete three-fragment stream A, B, C at one
    index, a caller appending each returned fragment in order
    reconstructs ABC. -/
theorem recv_content_block_delta_fragments (s : MessageStream) (ld d : String)
    (rest : List String) (cbd : ContentBlockDelta)
    (hl : s.lines = "event: content_block_delta" :: ld :: "" :: rest)
    (hd : IsFieldLine ld "data" d)
    (hok : unmarshalContentBlockDelta (d ++ "\n") = .ok cbd) :
    ((s.Recv).1 = .ok { s.event with
        Type' := StreamEventContentBlockDelta
        ContentBlock := some { Type' := cbd.Delta.Type', Text := cbd.Delta.Text }
        Index := cbd.Index } ∧
      (s.Recv).2.event.ContentBlock =
        some { Type' := cbd.Delta.Type', Text := cbd.Delta.Text } ∧
      (s.Recv).2.event.Index = cbd.Index ∧
      (s.Recv).2.lines = rest) ∧
    recvText abcStream ++ recvText (pullN abcStream 1) ++ recvText (pullN abcStream 2)
      = "ABC" := by
  constructor
  · rw [recv_frame s "event: content_block_delta" ld "content_block_delta" d rest hl
        (by decide) hd (by decide),
      recvDispatch_content_block_delta s.event s.ignoreUnknownEvents (d ++ "\n") cbd hok]
    exact ⟨rfl, rfl, rfl, rfl⟩
  · rfl

theorem recv_content_block_delta_fragments_witness :
    (MessageStream.Recv abcStream).1 = .ok
      { Type' := StreamEventContentBlockDelta
      , Message := none
      , Delta := none
      , ContentBlock := some { Type' := "text_delta", Text := "A" }
      , Index := 0 } ∧
    (MessageStream.Recv abcStream).2.lines =
      ["event: content_block_delta", "data: " ++ cbdPayloadB, ""
        , "event: content_block_delta", "data: " ++ cbdPayloadC, ""] :=
  have h := recv_content_block_delta_fragments abcStream ("data: " ++ cbdPayloadA)
    cbdPayloadA
    ["event: content_block_delta", "data: " ++ cbdPayloadB, ""
      , "event: content_block_delta", "data: " ++ cbdPayloadC, ""]
    { Type' := "content_block_delta", Index := 0
    , Delta := { Type' := "text_delta", Text := "A" } }
    rfl (by decide) rfl
  ⟨h.1.1, h.1.2.2.2⟩

/-- Decoding an object none of whose keys is message leaves the Message
    field of the output event unchanged. -/
theorem unmarshalInto_preserves_message (fs : List (String × Json)) :
    ∀ ev ev' : MessageStreamEvent, (∀ p ∈ fs, p.1 ≠ "message") →
      MessageStreamEvent.unmarshalInto ev (.obj fs) = .ok ev' →
      ev'.Message = ev.Message := by
  induction fs with
  | nil =>
    intro ev ev' _ h
    simp only [MessageStreamEvent.unmarshalInto, List.foldlM] at h
    cases h
    rfl
  | cons kv rest ih =>
    intro ev ev' hk h
    rw [show MessageStreamEvent.unmarshalInto ev (.obj (kv :: rest)) =
        Except.bind
          (if kv.1 = "type" then
            (jsonStringField ev.Type' kv.2).map (fun s => { ev with Type' := s })
          else if kv.1 = "message" then
            (jsonPtrField ev.Message Message.zero Message.unmarshalInto kv.2).map
              (fun m => { ev with Message := m })
          else if kv.1 = "delta" then
            (jsonPtrField ev.Delta MessageDelta.zero MessageDelta.unmarshalInto kv.2).map
              (fun d => { ev with Delta := d })
          else if kv.1 = "content_block" then
            (jsonPtrField ev.ContentBlock ContentBlock.zero ContentBlock.unmarshalInto kv.2).map
              (fun cb => { ev with ContentBlock := cb })
          else if kv.1 = "index" then
            (jsonIntField ev.Index kv.2).map (fun n => { ev with Index := n })
          else .ok ev)
          (fun x => MessageStreamEvent.unmarshalInto x (.obj rest)) from rfl] at h
    have hkm : kv.1 ≠ "message" := hk kv (List.mem_cons_self kv rest)
    cases hstep : (if kv.1 = "type" then
        (jsonStringField ev.Type' kv.2).map (fun s => { ev with Type' := s })
      else if kv.1 = "message" then
        (jsonPtrField ev.Message Message.zero Message.unmarshalInto kv.2).map
          (fun m => { ev with Message := m })
      else if kv.1 = "delta" then
        (jsonPtrField ev.Delta MessageDelta.zero MessageDelta.unmarshalInto kv.2).map
          (fun d => { ev with Delta := d })
      else if kv.1 = "content_block" then
        (jsonPtrField ev.ContentBlock ContentBlock.zero ContentBlock.unmarshalInto kv.2).map
          (fun cb => { ev with ContentBlock := cb })
      else if kv.1 = "index" then
        (jsonIntField ev.Index kv.2).map (fun n => { ev with Index := n })
      else .ok ev : Except Unit MessageStreamEvent) with
    | error e =>
      rw [hstep] at h
      simp [Except.bind] at h
    | ok acc1 =>
      rw [hstep] at h
      simp only [Except.bind] at h
      have hrest : MessageStreamEvent.unmarshalInto acc1 (.obj rest) = .ok ev' := h
      have hmAcc : acc1.Message = ev.Message := by
        by_cases h1 : kv.1 = "type"
        · rw [if_pos h1] at hstep
          cases hj : jsonStringField ev.Type' kv.2 <;> rw [hj] at hstep <;>
            simp [Except.map] at hstep
          rw [← hstep]
        · rw [if_neg h1, if_neg hkm] at hstep
          by_cases h2 : kv.1 = "delta"
          · rw [if_pos h2] at hstep
            cases hj : jsonPtrField ev.Delta MessageDelta.zero
                MessageDelta.unmarshalInto kv.2 <;>
              rw [hj] at hstep <;> simp [Except.map] at hstep
            rw [← hstep]
          · rw [if_neg h2] at hstep
            by_cases h3 : kv.1 = "content_block"
            · rw [if_pos h3] at hstep
              cases hj : jsonPtrField ev.ContentBlock ContentBlock.zero
                  ContentBlock.unmarshalInto kv.2 <;>
                rw [hj] at hstep <;> simp [Except.map] at hstep
              rw [← hstep]
            · rw [if_neg h3] at hstep
              by_cases h4 : kv.1 = "index"
              · rw [if_pos h4] at hstep
                cases hj : jsonIntField ev.Index kv.2 <;> rw [hj] at hstep <;>
                  simp [Except.map] at hstep
                rw [← hstep]
              · rw [if_neg h4] at hstep
                cases hstep
                rfl
      have := ih acc1 ev' (fun p hp => hk p (List.mem_cons_of_mem kv hp)) hrest
      rw [this, hmAcc]

/-- C4 counterexample: after a message_stop pull on a handle whose
    event holds the Message of an earlier message_start, the Message
    field still holds that earlier value, while the value decoded from
    the message_stop payload alone carries no message at all — the
    payload is not decoded "replacing any prior value". -/
theorem recv_stop_retains_message_counterexample :
    (MessageStream.Recv
      { lines := ["event: message_stop", "data: " ++ msgStopPayload, ""]
      , event := sampleEvent, ignoreUnknownEvents := true }).2.event.Message =
        some sampleMessage ∧
    unmarshalMessageStreamEvent MessageStreamEvent.zero (msgStopPayload ++ "\n") =
      .ok { MessageStreamEvent.zero with Type' := "message_stop" } ∧
    ({ MessageStreamEvent.zero with Type' := "message_stop" } : MessageStreamEvent).Message
      = none ∧
    some sampleMessage ≠ (none : Option Message) :=
  ⟨rfl, rfl, rfl, Option.some_ne_none _⟩

/-- C4 amended: message_start and message_stop payloads are decoded
    into the output event struct by JSON merge: a key present in the
    payload replaces the corresponding field, and a key absent from the
    payload leaves the prior value in place; in particular a
    message_stop payload without a message key retains the Message of
    the earlier message_start. -/
theorem recv_start_stop_merges (s : MessageStream) (le ld n d : String)
    (rest : List String) (fs : List (String × Json)) (ev' : MessageStreamEvent)
    (hl : s.lines = le :: ld :: "" :: rest)
    (he : IsFieldLine le "event" n) (hd : IsFieldLine ld "data" d)
    (hn : n = StreamEventMessageStart ∨ n = StreamEventMessageStop)
    (hp : Json.parse (d ++ "\n") = some (.obj fs))
    (hk : ∀ p ∈ fs, p.1 ≠ "message")
    (hok : unmarshalMessageStreamEvent { s.event with Type' := n } (d ++ "\n") = .ok ev') :
    s.Recv = (.ok ev', { s with lines := rest, event := ev' }) ∧
    ev'.Message = s.event.Message := by
  have hping : n ≠ StreamEventPing := by
    rcases hn with h | h <;> rw [h] <;> decide
  constructor
  · rw [recv_frame s le ld n d rest hl he hd hping,
      recvDispatch_start_stop s.event s.ignoreUnknownEvents n (d ++ "\n") hn ev' hok]
  · have hInto : MessageStreamEvent.unmarshalInto { s.event with Type' := n } (.obj fs)
        = .ok ev' := by
      unfold unmarshalMessageStreamEvent at hok
      rw [hp] at hok
      exact hok
    exact unmarshalInto_preserves_message fs { s.event with Type' := n } ev' hk hInto

theorem recv_start_stop_merges_witness :
    MessageStream.Recv
      { lines := ["event: message_stop", "data: " ++ msgStopPayload, ""]
      , event := sampleEvent, ignoreUnknownEvents := true } =
      (.ok { sampleEvent with Type' := "message_stop" },
        { lines := [], event := { sampleEvent with Type' := "message_stop" }
        , ignoreUnknownEvents := true }) ∧
    ({ sampleEvent with Type' := "message_stop" } : MessageStreamEvent).Message =
      sampleEvent.Message :=
  recv_start_stop_merges _ "event: message_stop" ("data: " ++ msgStopPayload)
    "message_stop" msgStopPayload [] [("type", Json.str "message_stop")]
    { sampleEvent with Type' := "message_stop" }
    rfl (by decide) (by decide) (Or.inr rfl) rfl
    (by
      rintro p hp
      rw [List.mem_singleton] at hp
      rw [hp]
      decide)
    rfl

/-- The line list of a run of message_delta frames, one frame per
    payload-usage pair. -/
def deltaFrames : List (String × Usage) → List String
  | [] => []
  | p :: rest => "event: message_delta" :: ("data: " ++ p.1) :: "" :: deltaFrames rest

theorem pullN_one (s : MessageStream) : pullN s 1 = (s.Recv).2 := rfl

theorem pullN_add (s : MessageStream) (a b : Nat) :
    pullN s (a + b) = pullN (pullN s a) b := by
  induction a generalizing s with
  | zero =>
    rw [Nat.zero_add]
    rfl
  | succ a ih =>
    rw [Nat.succ_add]
    show pullN (s.Recv).2 (a + b) = pullN (pullN (s.Recv).2 a) b
    exact ih (s.Recv).2

theorem unmarshal_msgStop_into (ev : MessageStreamEvent) :
    unmarshalMessageStreamEvent ev (msgStopPayload ++ "\n") =
      .ok { ev with Type' := "message_stop" } := rfl

/-- Pulling a run of message_delta frames, each carrying a usage value,
    adds every incremental output-token count into the retained
    Message, consumes exactly those frames, and touches nothing else of
    the Message. -/
theorem recv_delta_frames (ds : List (String × Usage)) :
    ∀ (s : MessageStream) (m : Message) (tail : List String),
      s.lines = deltaFrames ds ++ tail →
      s.event.Message = some m →
      (∀ p ∈ ds, IsFieldLine ("data: " ++ p.1) "data" p.1 ∧
        ∃ w, unmarshalMessageDeltaWrapper (p.1 ++ "\n") = .ok w ∧ w.Usage = some p.2) →
      (pullN s ds.length).lines = tail ∧
      (pullN s ds.length).event.Message = some { m with Usage := { m.Usage with
        OutputTokens := m.Usage.OutputTokens +
          (ds.map (fun p => p.2.OutputTokens)).sum } } := by
  induction ds with
  | nil =>
    intro s m tail hl hm _
    refine ⟨by simpa [deltaFrames] using hl, ?_⟩
    show s.event.Message = _
    rw [hm]
    simp
  | cons p rest ih =>
    intro s m tail hl hm hds
    obtain ⟨hline, w, hw, hu⟩ := hds p (List.mem_cons_self p rest)
    have hl' : s.lines = "event: message_delta" :: ("data: " ++ p.1) :: "" ::
        (deltaFrames rest ++ tail) := by
      rw [hl]
      simp [deltaFrames]
    have hrecv := recv_frame s "event: message_delta" ("data: " ++ p.1) "message_delta"
      p.1 (deltaFrames rest ++ tail) hl' (by decide) hline (by decide)
    rw [recvDispatch_delta_ok s.event s.ignoreUnknownEvents (p.1 ++ "\n") w m p.2 hw hm hu]
      at hrecv
    have hstep : pullN s ((p :: rest).length) = pullN (s.Recv).2 rest.length := rfl
    have h2 := ih (s.Recv).2
      { m with Usage := { m.Usage with
          OutputTokens := m.Usage.OutputTokens + p.2.OutputTokens } }
      tail (by rw [hrecv]) (by rw [hrecv])
      (fun q hq => hds q (List.mem_cons_of_mem p hq))
    rw [hstep]
    refine ⟨h2.1, ?_⟩
    rw [h2.2]
    simp [Int.add_assoc]

/-- The concrete stream of the C2 counterexample: a message_start whose
    message already counts five output tokens, one message_delta with
    an incremental usage of one output token, and a message_stop. -/
def c2Stream : MessageStream :=
  { lines := ["event: message_start", "data: " ++ msgStartPayload, ""
      , "event: message_delta", "data: " ++ msgDeltaPayload, ""
      , "event: message_stop", "data: " ++ msgStopPayload, ""]
  , event := MessageStreamEvent.zero
  , ignoreUnknownEvents := true }

set_option maxRecDepth 8000 in
/-- C2 counterexample: on the concrete well-formed sequence of c2Stream
    the sum of the incremental output-token usage values of all
    message_delta frames is one, but after all pulls the retained
    Message counts six output tokens, because the count decoded by the
    message_start (five) is the base the increments are added onto. -/
theorem recv_usage_sum_counterexample :
    (pullN c2Stream 3).event.Message.map (fun m => m.Usage.OutputTokens) = some 6 ∧
    unmarshalMessageDeltaWrapper (msgDeltaPayload ++ "\n") =
      .ok { Type' := "message_delta"
          , Delta := { StopReason := "end_turn", StopSequence := none }
          , Usage := some { InputTokens := 0, OutputTokens := 1 } } ∧
    (6 : Int) ≠ 1 := by
  refine ⟨rfl, rfl, by decide⟩

/-- C2 amended: for every well-formed frame sequence of a message_start
    followed by message_delta frames each carrying an incremental
    usage, and closed by a message_stop, the output-token count of the
    retained Message after all pulls equals the count decoded from
    the message_start plus the sum of all the message_delta incremental
    output-token values (each delta accumulates; none replaces). -/
theorem recv_output_tokens_accumulate
    (s : MessageStream) (dstart : String) (ev1 : MessageStreamEvent) (m : Message)
    (ds : List (String × Usage))
    (hl : s.lines = "event: message_start" :: ("data: " ++ dstart) :: "" ::
      (deltaFrames ds ++ ["event: message_stop", "data: " ++ msgStopPayload, ""]))
    (hd0 : IsFieldLine ("data: " ++ dstart) "data" dstart)
    (hstart : unmarshalMessageStreamEvent { s.event with Type' := "message_start" }
      (dstart ++ "\n") = .ok ev1)
    (hm : ev1.Message = some m)
    (hds : ∀ p ∈ ds, IsFieldLine ("data: " ++ p.1) "data" p.1 ∧
      ∃ w, unmarshalMessageDeltaWrapper (p.1 ++ "\n") = .ok w ∧ w.Usage = some p.2) :
    (pullN s (ds.length + 2)).event.Message = some { m with Usage := { m.Usage with
      OutputTokens := m.Usage.OutputTokens +
        (ds.map (fun p => p.2.OutputTokens)).sum } } := by
  have hrecv1 := recv_frame s "event: message_start" ("data: " ++ dstart) "message_start"
    dstart (deltaFrames ds ++ ["event: message_stop", "data: " ++ msgStopPayload, ""])
    hl (by decide) hd0 (by decide)
  rw [recvDispatch_start_stop s.event s.ignoreUnknownEvents "message_start"
    (dstart ++ "\n") (Or.inl rfl) ev1 hstart] at hrecv1
  have hsplit : pullN s (ds.length + 2) = pullN (pullN (pullN s 1) ds.length) 1 := by
    rw [← pullN_add, ← pullN_add]
    congr 1
    omega
  have hmid := recv_delta_frames ds (pullN s 1) m
    ["event: message_stop", "data: " ++ msgStopPayload, ""]
    (by rw [pullN_one, hrecv1]) (by rw [pullN_one, hrecv1]; exact hm) hds
  have hrecv3 := recv_frame (pullN (pullN s 1) ds.length) "event: message_stop"
    ("data: " ++ msgStopPayload) "message_stop" msgStopPayload [] hmid.1
    (by decide) (by decide) (by decide)
  rw [recvDispatch_start_stop _ _ "message_stop" (msgStopPayload ++ "\n") (Or.inr rfl)
    { (pullN (pullN s 1) ds.length).event with Type' := "message_stop" }
    (unmarshal_msgStop_into _)] at hrecv3
  rw [hsplit, pullN_one (pullN (pullN s 1) ds.length), hrecv3]
  exact hmid.2

set_option maxRecDepth 8000 in
theorem recv_output_tokens_accumulate_witness :
    (pullN c2Stream 3).event.Message = some { sampleMessage with Usage :=
      { sampleMessage.Usage with OutputTokens := sampleMessage.Usage.OutputTokens +
        ([(msgDeltaPayload, ({ InputTokens := 0, OutputTokens := 1 } : Usage))].map
          (fun p => p.2.OutputTokens)).sum } } := by
  exact recv_output_tokens_accumulate c2Stream msgStartPayload sampleEvent sampleMessage
    [(msgDeltaPayload, { InputTokens := 0, OutputTokens := 1 })]
    rfl (by decide) rfl rfl
    (by
      rintro p hp
      rw [List.mem_singleton] at hp
      subst hp
      exact ⟨by decide,
        ⟨{ Type' := "message_delta"
          , Delta := { StopReason := "end_turn", StopSequence := none }
          , Usage := some { InputTokens := 0, OutputTokens := 1 } }, rfl, rfl⟩⟩)

end Anthropic
